import Mathlib

/-!
Verification of the cache-aside / cache-stampede demonstration server
(`src/cache_stampede/server.py`) against its natural-language specification.

The Python server is embedded shallowly:
* the shared cache dictionary `self.cache` becomes a total function
  `String → Option String` (absent keys map to `none`);
* the wall-clock timestamp consumed by `expensive_operation` is modeled as an
  explicit `Nat` input;
* invocations of `expensive_operation` are counted in an instrumentation
  field `calls` of the server state, as the spec suggests ("observable via a
  call counter or mock");
* the interleaving of concurrent requests is modeled by a small-step phase
  machine (`ReqPhase`, `stepReq`) whose atomic steps are exactly the
  operations the mutex serializes: one `get`, one `compute`, one `set`.
-/

namespace CacheStampede

/-- The shared cache store (`self.cache : Dict[str, str]`), viewed as a total
map from keys to optional values. -/
def Cache := String → Option String

/-- The initial, empty cache (`self.cache = {}` in `__init__`). -/
def Cache.empty : Cache := fun _ => none

/-- Server state: the cache dictionary plus an instrumentation counter of how
many times `expensive_operation` has been invoked. -/
structure ServerState where
  cache : Cache
  calls : Nat

/-- Embeds `expensive_operation`: returns
`f"expensive_result_for_{key}_{int(time.time())}"`, with the wall-clock
timestamp passed as the explicit argument `timestamp`.  The `time.sleep(2)`
delay and the diagnostic prints have no effect on the returned value. -/
def expensive_operation (key : String) (timestamp : Nat) : String :=
  "expensive_result_for_" ++ key ++ "_" ++ toString timestamp

/-- Embeds `get_from_cache`: under the mutex, looks the key up in the
dictionary and returns the value if present, `None` otherwise.  The state is
returned unchanged, mirroring that the method only reads `self.cache`. -/
def get_from_cache (s : ServerState) (key : String) : Option String × ServerState :=
  (s.cache key, s)

/-- Embeds `set_cache`: under the mutex, `self.cache[key] = value`
(insert-or-overwrite of the single entry `key`). -/
def set_cache (s : ServerState) (key value : String) : ServerState :=
  ServerState.mk (fun k => if k = key then some value else s.cache k) s.calls

/-- Embeds `handle_request`: the cache-aside sequence.  Step 1 `get_from_cache`;
on a hit return the cached value; on a miss invoke `expensive_operation`
(counted in `calls`), `set_cache` the fresh value, and return it. -/
def handle_request (s : ServerState) (key : String) (timestamp : Nat) :
    String × ServerState :=
  match get_from_cache s key with
  | (some cached_value, s1) => (cached_value, s1)
  | (none, s1) =>
    let fresh_value := expensive_operation key timestamp
    let s2 := ServerState.mk s1.cache (s1.calls + 1)
    (fresh_value, set_cache s2 key fresh_value)

/-!
Concurrency model.  One request for a key goes through the phases of the
cache-aside handler; each phase transition is one atomic step, because the
mutex of the Python server serializes only the individual `get_from_cache`
and `set_cache` calls (and the compute step touches no shared state).
-/

/-- The phase a single in-flight `handle_request` is in. -/
inductive ReqPhase where
  | check
  | recompute
  | run_store (v : String)
  | done (v : String)
deriving DecidableEq, Repr

/-- One atomic step of one request for key `k` with timestamp `t`:
`check` performs the `get_from_cache` lookup, `recompute` performs the
`expensive_operation` call (bumping the invocation counter), `run_store`
performs the `set_cache` write.  A finished request stays finished. -/
def stepReq (k : String) (t : Nat) (s : ServerState) : ReqPhase → ReqPhase × ServerState
  | .check =>
    match s.cache k with
    | some v => (.done v, s)
    | none => (.recompute, s)
  | .recompute =>
    (.run_store (expensive_operation k t), ServerState.mk s.cache (s.calls + 1))
  | .run_store v => (.done v, set_cache s k v)
  | .done v => (.done v, s)

/-- Advance every request in the list by one atomic step, left to right,
threading the shared server state through. -/
def stepRound (k : String) (t : Nat) :
    ServerState → List ReqPhase → List ReqPhase × ServerState
  | s, [] => ([], s)
  | s, p :: ps =>
    let r := stepReq k t s p
    let rest := stepRound k t r.2 ps
    (r.1 :: rest.1, rest.2)

/-- The fully concurrent schedule for `n` simultaneous requests for key `k`:
every request performs its cache lookup before any request has stored a
value (all `check` steps, then all `recompute` steps, then all `run_store`
steps).  This is the interleaving the 2-second `time.sleep` makes typical. -/
def concurrentRun (k : String) (t : Nat) (s : ServerState) (n : Nat) :
    List ReqPhase × ServerState :=
  let r1 := stepRound k t s (List.replicate n .check)
  let r2 := stepRound k t r1.2 r1.1
  stepRound k t r2.2 r2.1

/-!
Connection handler.  A `recv(1024)` either yields a chunk of bytes that
decodes to a string, or raises (connection reset, undecodable bytes); the
wall clock at the time the chunk is handled is attached to the chunk.
-/

/-- The outcome of one `client_socket.recv(1024).decode('utf-8')` call:
either a decoded chunk (with the wall-clock timestamp used for any
recomputation it triggers), or an exception (read error / decode failure). -/
inductive RecvEvent where
  | chunk (data : String) (t : Nat)
  | fail
deriving DecidableEq, Repr

/-- Whitespace in the sense of Python's `str.strip()`. -/
def isPySpace (c : Char) : Bool :=
  c = ' ' || c = '\t' || c = '\n' || c = '\r' || c = '\x0b' || c = '\x0c'

/-- Python's `str.strip()`: remove leading and trailing whitespace. -/
def pyStrip (s : String) : String :=
  String.mk (((s.data.dropWhile isPySpace).reverse.dropWhile isPySpace).reverse)

/-- Embeds `handle_client`: repeatedly `recv`, `decode`, `strip`; stop on an
exception or on an empty stripped chunk (which covers end-of-stream, whose
`recv` returns the empty byte string); otherwise treat the stripped chunk as
the key of one `handle_request` and queue the newline-terminated result as
the response line.  Returns the response lines sent and the final state. -/
def handle_client : ServerState → List RecvEvent → List String × ServerState
  | s, [] => ([], s)
  | s, .fail :: _ => ([], s)
  | s, .chunk c t :: rest =>
    let data := pyStrip c
    if data = "" then ([], s)
    else
      let r := handle_request s data t
      let out := handle_client r.2 rest
      ((r.1 ++ "\n") :: out.1, out.2)

/-- Strictly sequential cache-aside processing of a list of keys (with their
timestamps): the reference behaviour the connection handler should refine. -/
def seqRequests : ServerState → List (String × Nat) → List String × ServerState
  | s, [] => ([], s)
  | s, kt :: ks =>
    let r := handle_request s kt.1 kt.2
    let rest := seqRequests r.2 ks
    (r.1 :: rest.1, rest.2)

/-- Splits a byte stream into the successive chunks a loop of `recv(1024)`
calls returns when the whole stream is already buffered: each read takes at
most 1024 bytes.  Structural recursion on a fuel bounded by the length. -/
def recvChunksFuel : Nat → List Char → List (List Char)
  | 0, _ => []
  | _, [] => []
  | fuel + 1, l => l.take 1024 :: recvChunksFuel fuel (l.drop 1024)

/-- The chunk sequence `recv(1024)` produces for a fully buffered stream. -/
def recvChunks (s : String) : List String :=
  (recvChunksFuel s.data.length s.data).map String.mk

/-!
Sequential properties of the store and the cache-aside handler.
-/

/-- C5: `get_from_cache` returns the stored value when the key is present and
`none` when it is absent — it is exactly the single map lookup — it is total,
and it leaves the server state (in particular the store) unchanged. -/
theorem get_from_cache_spec :
    ∀ (s : ServerState) (key : String), get_from_cache s key = (s.cache key, s) :=
  fun _ _ => rfl

/-- C10: frame property of the store operations — `set_cache k v` leaves every
other key unchanged (and the call counter), and `get_from_cache` leaves the
whole server state, hence the entire cache mapping, unchanged. -/
theorem store_frame (s : ServerState) (k k' v : String) (hne : k' ≠ k) :
    (set_cache s k v).cache k' = s.cache k' ∧ (set_cache s k v).calls = s.calls ∧
      (get_from_cache s k).2 = s := by
  refine ⟨?_, rfl, rfl⟩
  simp [set_cache, hne]

/-- Witness for `store_frame` at concrete distinct keys. -/
theorem store_frame_witness :
    (set_cache (ServerState.mk Cache.empty 0) "alpha" "v1").cache "beta" =
        (ServerState.mk Cache.empty 0).cache "beta" ∧
      (set_cache (ServerState.mk Cache.empty 0) "alpha" "v1").calls =
        (ServerState.mk Cache.empty 0).calls ∧
      (get_from_cache (ServerState.mk Cache.empty 0) "alpha").2 =
        ServerState.mk Cache.empty 0 :=
  store_frame (ServerState.mk Cache.empty 0) "alpha" "beta" "v1" (by decide)

/-- C4: `set_cache` is last-write-wins — after writing `v1` then `v2` to the
same key the stored value is `v2` — and idempotent — writing the same value
twice yields exactly the state of writing it once. -/
theorem set_cache_lww_idem :
    ∀ (s : ServerState) (k v1 v2 v : String),
      (set_cache (set_cache s k v1) k v2).cache k = some v2 ∧
        set_cache (set_cache s k v) k v = set_cache s k v := by
  intro s k v1 v2 v
  constructor
  · simp [set_cache]
  · unfold set_cache
    refine congrArg (fun c => ServerState.mk c s.calls) (funext fun k' => ?_)
    by_cases h : k' = k <;> simp [h]

/-- C2: a request for a key already present in the store returns the stored
value, invokes no recomputation (the state, hence the call counter and the
store, is unchanged), and a repeated request for that key — at any later
timestamp — again returns the identical value and leaves the state intact. -/
theorem handle_request_hit (s : ServerState) (key v : String) (t t' : Nat)
    (h : s.cache key = some v) :
    handle_request s key t = (v, s) ∧
      handle_request (handle_request s key t).2 key t' = (v, s) := by
  have h1 : handle_request s key t = (v, s) := by
    simp [handle_request, get_from_cache, h]
  exact ⟨h1, by rw [h1]; simp [handle_request, get_from_cache, h]⟩

/-- Witness for `handle_request_hit` on a store holding one key. -/
theorem handle_request_hit_witness :
    handle_request (set_cache (ServerState.mk Cache.empty 0) "user" "v0") "user" 3 =
        ("v0", set_cache (ServerState.mk Cache.empty 0) "user" "v0") ∧
      handle_request
          (handle_request (set_cache (ServerState.mk Cache.empty 0) "user" "v0") "user" 3).2
          "user" 4 =
        ("v0", set_cache (ServerState.mk Cache.empty 0) "user" "v0") :=
  handle_request_hit (set_cache (ServerState.mk Cache.empty 0) "user" "v0")
    "user" "v0" 3 4 (by simp [set_cache])

/-- C3: a request for an absent key returns the freshly computed
`expensive_operation` value, and afterwards the store maps that key to this
same returned value (and the invocation counter has increased by one). -/
theorem handle_request_miss (s : ServerState) (key : String) (t : Nat)
    (h : s.cache key = none) :
    (handle_request s key t).1 = expensive_operation key t ∧
      (handle_request s key t).2.cache key = some (expensive_operation key t) ∧
      (handle_request s key t).2.calls = s.calls + 1 := by
  refine ⟨?_, ?_, ?_⟩ <;> simp [handle_request, get_from_cache, set_cache, h]

/-- Witness for `handle_request_miss` on the empty store. -/
theorem handle_request_miss_witness :
    (handle_request (ServerState.mk Cache.empty 0) "user" 7).1 =
        expensive_operation "user" 7 ∧
      (handle_request (ServerState.mk Cache.empty 0) "user" 7).2.cache "user" =
        some (expensive_operation "user" 7) ∧
      (handle_request (ServerState.mk Cache.empty 0) "user" 7).2.calls =
        (ServerState.mk Cache.empty 0).calls + 1 :=
  handle_request_miss (ServerState.mk Cache.empty 0) "user" 7 rfl

/-- C8: `expensive_operation` always returns the string
`expensive_result_for` ++ `_` ++ key ++ `_` ++ timestamp — a fixed prefix,
then the key, then the decimal rendering of the integer timestamp — and it is
a total function (no error path). -/
theorem expensive_operation_shape :
    ∀ (key : String) (t : Nat),
      expensive_operation key t = "expensive_result_for" ++ "_" ++ key ++ "_" ++ toString t :=
  fun _ _ => rfl

/-!
The stampede: under the fully concurrent interleaving, every one of the `n`
requests observes the miss and performs its own recomputation.
-/

/-- While the key is absent, a round of `check` steps turns every request into
a `recompute` request and leaves the shared state untouched. -/
theorem stepRound_check_absent (k : String) (t : Nat) (s : ServerState) (n : Nat)
    (h : s.cache k = none) :
    stepRound k t s (List.replicate n .check) = (List.replicate n .recompute, s) := by
  induction n with
  | zero => rfl
  | succ m ih =>
    simp only [List.replicate_succ, stepRound, stepReq, h, ih]

/-- A round of `recompute` steps performs one `expensive_operation` invocation
per request: the call counter increases by exactly the number of requests and
every request now holds the freshly computed value, ready to store it. -/
theorem stepRound_recompute (k : String) (t : Nat) (s : ServerState) (n : Nat) :
    stepRound k t s (List.replicate n .recompute) =
      (List.replicate n (.run_store (expensive_operation k t)),
        ServerState.mk s.cache (s.calls + n)) := by
  induction n generalizing s with
  | zero => rfl
  | succ m ih =>
    simp only [List.replicate_succ, stepRound, stepReq, ih]
    exact Prod.ext rfl (congrArg (ServerState.mk s.cache) (by omega))

/-- A round of `run_store` steps finishes every request with its value and
performs no recomputation: the call counter is unchanged. -/
theorem stepRound_store (k : String) (t : Nat) (v : String) (s : ServerState) (n : Nat) :
    (stepRound k t s (List.replicate n (.run_store v))).1 = List.replicate n (.done v) ∧
      (stepRound k t s (List.replicate n (.run_store v))).2.calls = s.calls := by
  induction n generalizing s with
  | zero => exact ⟨rfl, rfl⟩
  | succ m ih =>
    simp only [List.replicate_succ, stepRound, stepReq]
    refine ⟨?_, ?_⟩
    · simp [(ih (set_cache s k v)).1]
    · rw [(ih (set_cache s k v)).2]; rfl

/-- C1: cache stampede. For `n ≥ 2` concurrent requests for the same key `k`
absent from the store, under the interleaving in which every request performs
its cache lookup before any request has stored a value, `expensive_operation`
is invoked exactly `n` times — once per request, with no coalescing — and
every request completes with the recomputed value. -/
theorem stampede_no_coalescing (n : Nat) (k : String) (t : Nat) (s : ServerState)
    (_hn : 2 ≤ n) (h : s.cache k = none) :
    (concurrentRun k t s n).2.calls = s.calls + n ∧
      (concurrentRun k t s n).1 = List.replicate n (.done (expensive_operation k t)) := by
  simp only [concurrentRun, stepRound_check_absent k t s n h, stepRound_recompute]
  exact ⟨(stepRound_store k t _ _ n).2, (stepRound_store k t _ _ n).1⟩

/-- Witness for `stampede_no_coalescing`: three concurrent requests for the
absent key `user` trigger three invocations. -/
theorem stampede_no_coalescing_witness :
    (concurrentRun "user" 7 (ServerState.mk Cache.empty 0) 3).2.calls =
        (ServerState.mk Cache.empty 0).calls + 3 ∧
      (concurrentRun "user" 7 (ServerState.mk Cache.empty 0) 3).1 =
        List.replicate 3 (.done (expensive_operation "user" 7)) :=
  stampede_no_coalescing 3 "user" 7 (ServerState.mk Cache.empty 0) (by decide) rfl

/-!
Connection-handler properties: framing, error containment, fragmentation.
-/

/-- C6 counterexample: the connection handler does not frame requests by
newline.  Two newline-delimited keys arriving in a single `recv` chunk are
handled as ONE request whose key is the whole stripped chunk: exactly one
response line is written, the store afterwards holds the combined string
`alpha\nbeta` as a key, and holds neither `alpha` nor `beta`. -/
theorem handle_client_not_line_framed :
    (handle_client (ServerState.mk Cache.empty 0) [RecvEvent.chunk "alpha\nbeta" 5]).1.length
        = 1 ∧
      (handle_client (ServerState.mk Cache.empty 0)
          [RecvEvent.chunk "alpha\nbeta" 5]).2.cache "alpha\nbeta" =
        some (expensive_operation "alpha\nbeta" 5) ∧
      (handle_client (ServerState.mk Cache.empty 0)
          [RecvEvent.chunk "alpha\nbeta" 5]).2.cache "alpha" = none ∧
      (handle_client (ServerState.mk Cache.empty 0)
          [RecvEvent.chunk "alpha\nbeta" 5]).2.cache "beta" = none := by
  decide

/-- C6 (amended): the connection handler treats each received chunk, stripped
of surrounding whitespace, as exactly one key: it behaves exactly like the
strictly sequential cache-aside processing of the stripped chunks, writing
one newline-terminated value line per chunk before reading the next. -/
theorem handle_client_one_request_per_chunk (s : ServerState)
    (reqs : List (String × Nat)) (h : ∀ ct ∈ reqs, pyStrip ct.1 ≠ "") :
    handle_client s (reqs.map fun ct => RecvEvent.chunk ct.1 ct.2) =
      ((seqRequests s (reqs.map fun ct => (pyStrip ct.1, ct.2))).1.map (fun r => r ++ "\n"),
        (seqRequests s (reqs.map fun ct => (pyStrip ct.1, ct.2))).2) := by
  induction reqs generalizing s with
  | nil => rfl
  | cons ct rest ih =>
    have hct : pyStrip ct.1 ≠ "" := h ct (List.mem_cons_self ct rest)
    have hrest : ∀ x ∈ rest, pyStrip x.1 ≠ "" := fun x hx => h x (List.mem_cons_of_mem ct hx)
    simp only [List.map_cons, handle_client, seqRequests, if_neg hct,
      ih (handle_request s (pyStrip ct.1) ct.2).2 hrest]

/-- Witness for `handle_client_one_request_per_chunk`: two chunks carrying the
keys `alpha` and `beta` become two sequential requests and two response
lines. -/
theorem handle_client_one_request_per_chunk_witness :
    handle_client (ServerState.mk Cache.empty 0)
        (([("alpha", 1), ("beta", 2)] : List (String × Nat)).map
          (fun ct => RecvEvent.chunk ct.1 ct.2)) =
      ((seqRequests (ServerState.mk Cache.empty 0)
            (([("alpha", 1), ("beta", 2)] : List (String × Nat)).map
              (fun ct => (pyStrip ct.1, ct.2)))).1.map (fun r => r ++ "\n"),
        (seqRequests (ServerState.mk Cache.empty 0)
            (([("alpha", 1), ("beta", 2)] : List (String × Nat)).map
              (fun ct => (pyStrip ct.1, ct.2)))).2) :=
  handle_client_one_request_per_chunk (ServerState.mk Cache.empty 0)
    [("alpha", 1), ("beta", 2)] (by decide)

/-- C7: error containment.  Whatever the state when a read error / decode
failure occurs, or when an empty (whitespace-only) chunk — which includes the
end-of-stream empty read — arrives, the handler terminates at that point: its
responses and final state are exactly those of processing the preceding
events alone.  Nothing after the error is processed, and the error mutates
nothing: the store afterwards is the store produced by the completed
requests before it. -/

theorem handle_client_error_containment (s : ServerState) (good rest : List RecvEvent)
    (c : String) (t : Nat) (h : pyStrip c = "") :
    handle_client s (good ++ RecvEvent.fail :: rest) = handle_client s good ∧
      handle_client s (good ++ RecvEvent.chunk c t :: rest) = handle_client s good := by
  induction good generalizing s with
  | nil => exact ⟨rfl, by simp [handle_client, h]⟩
  | cons e es ih =>
    cases e with
    | fail => exact ⟨rfl, rfl⟩
    | chunk c' t' =>
      by_cases hc : pyStrip c' = ""
      · simp [handle_client, hc]
      · simp only [List.cons_append, handle_client, if_neg hc, List.append_eq,
          (ih (handle_request s (pyStrip c') t').2).1,
          (ih (handle_request s (pyStrip c') t').2).2]
        exact ⟨trivial, trivial⟩


/-- Witness for `handle_client_error_containment`: after one good request, a
read error (and likewise a whitespace-only line) stops the handler with the
same output and state as the one good request alone. -/
theorem handle_client_error_containment_witness :
    handle_client (ServerState.mk Cache.empty 0)
        ([RecvEvent.chunk "user" 1] ++ RecvEvent.fail :: [RecvEvent.chunk "ghost" 2]) =
      handle_client (ServerState.mk Cache.empty 0) [RecvEvent.chunk "user" 1] ∧
    handle_client (ServerState.mk Cache.empty 0)
        ([RecvEvent.chunk "user" 1] ++ RecvEvent.chunk " \n" 9 :: [RecvEvent.chunk "ghost" 2]) =
      handle_client (ServerState.mk Cache.empty 0) [RecvEvent.chunk "user" 1] :=
  handle_client_error_containment (ServerState.mk Cache.empty 0)
    [RecvEvent.chunk "user" 1] [RecvEvent.chunk "ghost" 2] " \n" 9 (by decide)

set_option maxRecDepth 100000 in
/-- C9: each read takes at most 1024 bytes, so a 1500-byte key followed by a
newline is delivered in two chunks of lengths 1024 and 477, and the handler
processes the two fragments as two distinct keys: two response lines are
produced, the intended 1500-byte key is never cached, while both fragments
(the first 1024 bytes, and the remaining 476 bytes after stripping the
newline) end up cached as keys of their own. -/
theorem recv_fragments_long_line :
    (recvChunks (String.mk (List.replicate 1500 'a') ++ "\n")).map String.length
        = [1024, 477] ∧
      (handle_client (ServerState.mk Cache.empty 0)
          ((recvChunks (String.mk (List.replicate 1500 'a') ++ "\n")).map
            (fun c => RecvEvent.chunk c 0))).1.length = 2 ∧
      (handle_client (ServerState.mk Cache.empty 0)
          ((recvChunks (String.mk (List.replicate 1500 'a') ++ "\n")).map
            (fun c => RecvEvent.chunk c 0))).2.cache
          (String.mk (List.replicate 1500 'a')) = none ∧
      (handle_client (ServerState.mk Cache.empty 0)
          ((recvChunks (String.mk (List.replicate 1500 'a') ++ "\n")).map
            (fun c => RecvEvent.chunk c 0))).2.cache
          (String.mk (List.replicate 1024 'a')) =
        some (expensive_operation (String.mk (List.replicate 1024 'a')) 0) ∧
      (handle_client (ServerState.mk Cache.empty 0)
          ((recvChunks (String.mk (List.replicate 1500 'a') ++ "\n")).map
            (fun c => RecvEvent.chunk c 0))).2.cache
          (String.mk (List.replicate 476 'a')) =
        some (expensive_operation (String.mk (List.replicate 476 'a')) 0) := by
  decide

end CacheStampede
